import Mathlib

/-!
Shallow embedding of `src/main.rs` of the clnurl repository (an LNURL-pay
plugin for a Lightning node), together with theorems settling the spec
claims about it.

External collaborators (the `url` crate, the `nostr` crate's event
parsing/verification, the `uuid` generator and the node RPC transport)
are not repository code; they are modelled as explicit environment
parameters or, where the spec pins down their behaviour, as definitions
whose doc comment starts with `Modelled from the spec:`.
-/

namespace Clnurl

/-- Model of `cln_rpc::primitives::Amount` (external crate): a plain
millisatoshi count stored as an unsigned 64-bit integer.  `from_msat`
stores the count and `msat` reads it back, both without any scaling. -/
structure Amount where
  msat : Nat
deriving DecidableEq, Repr

/-- Modelled from the spec: `Amount::from_msat` of the external `cln_rpc`
crate stores the millisatoshi count directly. -/
def Amount.from_msat (m : Nat) : Amount := ⟨m⟩

/-- Embedding of `struct AmountWrapper(Amount)` from `src/main.rs`. -/
structure AmountWrapper where
  amount : Amount
deriving DecidableEq, Repr

/-- Embedding of `AmountWrapper::from_msat` (`src/main.rs` lines 158-160). -/
def AmountWrapper.from_msat (msat : Nat) : AmountWrapper :=
  ⟨Amount.from_msat msat⟩

/-- Embedding of `AmountWrapper::msat` (`src/main.rs` lines 162-164). -/
def AmountWrapper.msat (w : AmountWrapper) : Nat :=
  w.amount.msat

/-- Embedding of `impl From<AmountWrapper> for Amount` (`src/main.rs`
lines 187-191): unwraps the inner amount. -/
def AmountWrapper.toAmount (w : AmountWrapper) : Amount :=
  w.amount

/-- Embedding of `impl Deserialize for AmountWrapper` (`src/main.rs`
lines 167-176): the wire value is deserialized as a `u64` (failing when
the integer is not representable in 64 bits), then wrapped via
`Amount::from_msat`. -/
def AmountWrapper.deserialize (n : Nat) : Option AmountWrapper :=
  if n < 2 ^ 64 then some ⟨Amount.from_msat n⟩ else none

/-- Embedding of `impl Serialize for AmountWrapper` (`src/main.rs`
lines 178-185): serializes as the plain `msat` integer. -/
def AmountWrapper.serialize (w : AmountWrapper) : Nat :=
  w.msat

/-- Modelled from the spec: an absolute URL value of the external `url`
crate, reduced to the data the program observes — its normalized textual
serialization and whether it is a cannot-be-a-base URL (the only case in
which `Url::join` with a relative path fails). -/
structure Url where
  serialization : String
  cannot_be_a_base : Bool
deriving DecidableEq, Repr

/-- Keep every character of the base path up to and including its last
slash, dropping the final path segment. -/
def dropLastSegment (s : List Char) : List Char :=
  ((s.reverse).dropWhile (fun c => c ≠ '/')).reverse

/-- Modelled from the spec: `Url::join` of the external `url` crate with
the relative path `"invoice"` — it fails exactly on cannot-be-a-base
URLs, and otherwise replaces the last path segment of the base with
`invoice`. -/
def Url.joinInvoice (u : Url) : Option Url :=
  if u.cannot_be_a_base then none
  else some ⟨String.mk (dropLastSegment u.serialization.data) ++ "invoice", false⟩

/-- Embedding of `struct ClnurlState` (`src/main.rs` lines 103-109). -/
structure ClnurlState where
  rpc_socket : String
  api_base_address : Url
  description : String
  nostr_pubkey : Option String
deriving DecidableEq, Repr

/-- Embedding of `enum LnurlTag` (`src/main.rs` lines 124-128). -/
inductive LnurlTag where
  | payRequest
deriving DecidableEq, Repr

/-- Embedding of `struct LnurlResponse` (`src/main.rs` lines 111-122). -/
structure LnurlResponse where
  min_sendable : AmountWrapper
  max_sendable : AmountWrapper
  metadata : String
  callback : Url
  tag : LnurlTag
  allows_nostr : Bool
  nostr_pubkey : Option String
deriving DecidableEq, Repr

/-- Hexadecimal digit in the lowercase alphabet used by `serde_json`
control-character escapes. -/
def hexDigit (n : Nat) : Char :=
  if n < 10 then Char.ofNat (48 + n) else Char.ofNat (87 + n)

/-- Four lowercase hexadecimal digits of a code point below 0x10000. -/
def hex4 (n : Nat) : String :=
  String.mk [hexDigit (n / 4096 % 16), hexDigit (n / 256 % 16),
             hexDigit (n / 16 % 16), hexDigit (n % 16)]

/-- Modelled from the spec: the escaping performed by `serde_json` when
serializing a string — quote and backslash get two-character escapes,
the five named control characters get their short escapes, the other
control characters get a `\u` escape, and everything else is copied
verbatim. -/
def escapeChar (c : Char) : String :=
  if c = '"' then "\\\""
  else if c = '\\' then "\\\\"
  else if c = '\x08' then "\\b"
  else if c = '\x09' then "\\t"
  else if c = '\x0a' then "\\n"
  else if c = '\x0c' then "\\f"
  else if c = '\x0d' then "\\r"
  else if c.toNat < 0x20 then "\\u" ++ hex4 c.toNat
  else String.singleton c

/-- JSON serialization of a string value: the escaped characters between
double quotes. -/
def jsonEncodeString (s : String) : String :=
  "\"" ++ String.join (s.data.map escapeChar) ++ "\""

/-- JSON serialization of an array of strings. -/
def jsonStringArray (l : List String) : String :=
  "[" ++ String.intercalate "," (l.map jsonEncodeString) ++ "]"

/-- JSON serialization of an array of arrays of strings. -/
def jsonStringArrayArray (l : List (List String)) : String :=
  "[" ++ String.intercalate "," (l.map jsonStringArray) ++ "]"

/-- Embedding of `serde_json::to_string(&Vec<Vec<String>>)`: serializing
nested string vectors is infallible in `serde_json`, so the result is
always `some`; the `Option` mirrors the fallible Rust signature that the
call sites handle with `?`. -/
def serde_json_to_string (v : List (List String)) : Option String :=
  some (jsonStringArrayArray v)

/-- Outcome of an axum handler in the embedding: a successful JSON
response, an error status code (the code only ever produces
`StatusCode::INTERNAL_SERVER_ERROR`, i.e. 500), or a Rust `panic!` that
aborts the process with the given message. -/
inductive HandlerResult (α : Type) where
  | ok (val : α)
  | err (status : Nat)
  | crash (msg : String)
deriving DecidableEq, Repr

/-- Embedding of `get_lnurl_struct` (`src/main.rs` lines 130-146),
following the evaluation order of the Rust struct literal: the metadata
serialization (propagating an error as status 500 via `?`) happens
before the callback join, whose failure hits
`.expect("Still a valid URL")`, i.e. a process abort. -/
def get_lnurl_struct (state : ClnurlState) : HandlerResult LnurlResponse :=
  match serde_json_to_string [["text/plain", state.description]] with
  | none => .err 500
  | some metadata =>
    match state.api_base_address.joinInvoice with
    | none => .crash "Still a valid URL"
    | some callback =>
      .ok { min_sendable := AmountWrapper.from_msat 1
            max_sendable := AmountWrapper.from_msat 100000000000
            metadata := metadata
            callback := callback
            tag := LnurlTag.payRequest
            allows_nostr := state.nostr_pubkey.isSome
            nostr_pubkey := state.nostr_pubkey }

/-- Embedding of `struct GetInvoiceParams` (`src/main.rs` lines 148-152). -/
structure GetInvoiceParams where
  amount : AmountWrapper
  nostr : Option String
deriving DecidableEq, Repr

/-- Embedding of `struct GetInvoiceResponse` (`src/main.rs`
lines 193-201). -/
structure GetInvoiceResponse where
  pr : String
  success_action : Option String
  routes : List String
deriving DecidableEq, Repr

/-- Modelled from the spec: a parsed signed nostr event of the external
`nostr` crate, reduced to what the handler observes of it — its
canonical JSON serialization `as_json`. -/
structure Event where
  as_json : String
deriving DecidableEq, Repr

/-- Embedding of `cln_rpc::primitives::AmountOrAny` (external crate):
either an exact amount or "any". -/
inductive AmountOrAny where
  | amount (a : Amount)
  | any
deriving DecidableEq, Repr

/-- Embedding of `cln_rpc::model::InvoiceRequest` (external crate), with
exactly the fields the program fills in (`src/main.rs` lines 225-235). -/
structure InvoiceRequest where
  amount_msat : AmountOrAny
  description : String
  label : String
  expiry : Option Nat
  fallbacks : Option (List String)
  preimage : Option String
  exposeprivatechannels : Option Bool
  cltv : Option Nat
  deschashonly : Option Bool
deriving DecidableEq, Repr

/-- Model of `cln_rpc::Response` (external crate) as the handler matches
on it: either an invoice-creation response carrying the bolt11 string,
or any other response kind. -/
inductive CLNResponse where
  | invoice (bolt11 : String)
  | other
deriving DecidableEq, Repr

/-- Environment of one `get_invoice` invocation, collecting the external
collaborators: whether `ClnRpc::new` succeeds, the `nostr` crate's
`Event::from_json` and `Event::verify` (pure deterministic functions per
the spec), the label produced by `Uuid::new_v4().to_string()` for this
call, and the node's reply to a submitted invoice-creation request
(`none` models a transport or RPC-level error). -/
structure InvoiceEnv where
  connectOk : Bool
  from_json : String → Option Event
  verify : Event → Bool
  label : String
  rpcCall : InvoiceRequest → Option CLNResponse

/-- Embedding of the description resolution of `get_invoice`
(`src/main.rs` lines 211-222): with a `nostr` parameter, parse and
verify the event (either failure maps to status 500, modelled as
`none`) and use its canonical JSON; without one, serialize the same
metadata array as the descriptor builder. -/
def resolveDescription (state : ClnurlState) (env : InvoiceEnv)
    (nostr : Option String) : Option String :=
  match nostr with
  | some d =>
    match env.from_json d with
    | none => none
    | some zap_request =>
      if env.verify zap_request then some zap_request.as_json else none
  | none => serde_json_to_string [["text/plain", state.description]]

/-- Embedding of the invoice-creation request construction
(`src/main.rs` lines 225-235). -/
def mkInvoiceRequest (amount : AmountWrapper) (description : String)
    (label : String) : InvoiceRequest :=
  { amount_msat := AmountOrAny.amount amount.toAmount
    description := description
    label := label
    expiry := none
    fallbacks := none
    preimage := none
    exposeprivatechannels := none
    cltv := none
    deschashonly := some true }

/-- Embedding of `get_invoice` (`src/main.rs` lines 203-249).  The
second component of the result records every invoice-creation request
submitted to the RPC client during the invocation, so that theorems can
speak about which calls were issued.  Control flow follows the source:
connect first, then description resolution, then the RPC call, then the
match on the response kind whose fallback arm is
`panic!("CLN returned wrong response kind")`. -/
def get_invoice (state : ClnurlState) (env : InvoiceEnv)
    (params : GetInvoiceParams) :
    HandlerResult GetInvoiceResponse × List InvoiceRequest :=
  if env.connectOk = false then (.err 500, [])
  else
    match resolveDescription state env params.nostr with
    | none => (.err 500, [])
    | some description =>
      let req := mkInvoiceRequest params.amount description env.label
      match env.rpcCall req with
      | none => (.err 500, [req])
      | some (CLNResponse.invoice bolt11) =>
        (.ok { pr := bolt11, success_action := none, routes := [] }, [req])
      | some CLNResponse.other =>
        (.crash "CLN returned wrong response kind", [req])

/-- Serialized field list of `LnurlResponse` under serde's derived
serializer with `rename_all = "camelCase"`: fields in declaration order,
integers for the amount wrappers, JSON strings for the string-valued
fields, and `nostrPubkey` skipped entirely when `None`
(`skip_serializing_if = "Option::is_none"`, `src/main.rs` line 120). -/
def lnurlFields (r : LnurlResponse) : List (String × String) :=
  [("minSendable", toString r.min_sendable.serialize),
   ("maxSendable", toString r.max_sendable.serialize),
   ("metadata", jsonEncodeString r.metadata),
   ("callback", jsonEncodeString r.callback.serialization),
   ("tag", jsonEncodeString "payRequest"),
   ("allowsNostr", if r.allows_nostr then "true" else "false")] ++
  (match r.nostr_pubkey with
   | none => []
   | some pk => [("nostrPubkey", jsonEncodeString pk)])

/-- JSON object from a list of already-serialized key/value pairs. -/
def jsonObject (fields : List (String × String)) : String :=
  "\x7b" ++
    String.intercalate ","
      (fields.map (fun kv => jsonEncodeString kv.1 ++ ":" ++ kv.2)) ++
  "\x7d"

/-- Embedding of `serde_json::to_string(&LnurlResponse)`. -/
def serializeLnurlResponse (r : LnurlResponse) : String :=
  jsonObject (lnurlFields r)

/-- The descriptor value `get_lnurl_struct` produces, written out
field by field. -/
def builtDescriptor (state : ClnurlState) : LnurlResponse :=
  { min_sendable := AmountWrapper.from_msat 1
    max_sendable := AmountWrapper.from_msat 100000000000
    metadata := jsonStringArrayArray [["text/plain", state.description]]
    callback := ⟨String.mk (dropLastSegment state.api_base_address.serialization.data)
                   ++ "invoice", false⟩
    tag := LnurlTag.payRequest
    allows_nostr := state.nostr_pubkey.isSome
    nostr_pubkey := state.nostr_pubkey }

/-- Sample base address used as concrete input by witnesses (the
default value of the `clnurl_base_address` option). -/
def sampleUrl : Url := ⟨"http://localhost/", false⟩

/-- Sample service state used as concrete input by witnesses (the
default option values of the plugin). -/
def sampleState : ClnurlState :=
  ⟨"/tmp/lightning-rpc", sampleUrl, "Gimme money!", none⟩

/-- Sample query parameters for an invoice request without a nostr
event. -/
def sampleParams : GetInvoiceParams := ⟨AmountWrapper.from_msat 1000, none⟩

/-- Environment in which the node answers every invoice-creation
request with a response of the wrong kind. -/
def wrongKindEnv : InvoiceEnv :=
  ⟨true, fun _ => none, fun _ => true,
   "00000000-0000-4000-8000-000000000000", fun _ => some CLNResponse.other⟩

/-- Environment in which event signature verification always fails
(a tampered signature) while the RPC client would answer normally. -/
def tamperedSigEnv : InvoiceEnv :=
  ⟨true, fun s => some ⟨s⟩, fun _ => false,
   "00000000-0000-4000-8000-000000000001", fun _ => some (CLNResponse.invoice "lnbc1demo")⟩

/-- Environment in which everything succeeds and the node returns a
fixed bolt11 invoice. -/
def okEnv : InvoiceEnv :=
  ⟨true, fun s => some ⟨s⟩, fun _ => true,
   "00000000-0000-4000-8000-000000000002", fun _ => some (CLNResponse.invoice "lnbc10n1demo")⟩

/-- Helper: under a successful connection and a resolved description,
`get_invoice` submits exactly one invoice-creation request, built by
`mkInvoiceRequest`, whatever the node then answers. -/
theorem get_invoice_trace (state : ClnurlState) (env : InvoiceEnv)
    (params : GetInvoiceParams) (desc : String)
    (hc : env.connectOk = true)
    (hd : resolveDescription state env params.nostr = some desc) :
    (get_invoice state env params).2 =
      [mkInvoiceRequest params.amount desc env.label] := by
  simp only [get_invoice, hc, hd]
  cases hr : env.rpcCall (mkInvoiceRequest params.amount desc env.label) with
  | none => simp [hr]
  | some resp => cases resp <;> simp [hr]

/-- Helper: with a base address that is not a cannot-be-a-base URL,
`get_lnurl_struct` returns `builtDescriptor`. -/
theorem get_lnurl_struct_ok (state : ClnurlState)
    (hb : state.api_base_address.cannot_be_a_base = false) :
    get_lnurl_struct state = .ok (builtDescriptor state) := by
  simp [get_lnurl_struct, serde_json_to_string, Url.joinInvoice, hb, builtDescriptor]

set_option maxRecDepth 8192 in
/-- The embedded serializer reproduces the repository's unit test
`test_lnurl_response_serialization` (`src/main.rs` lines 258-277)
byte for byte. -/
theorem serialize_matches_reference_test :
    serializeLnurlResponse
      { min_sendable := AmountWrapper.from_msat 0
        max_sendable := AmountWrapper.from_msat 1000000
        metadata := jsonStringArrayArray [["text/plain", "Hello world"]]
        callback := ⟨"http://example.com/", false⟩
        tag := LnurlTag.payRequest
        allows_nostr := true
        nostr_pubkey :=
          some "9630f464cca6a5147aa8a35f0bcdd3ce485324e732fd39e09233b1d848238f31" } =
    "\x7b\"minSendable\":0,\"maxSendable\":1000000,\"metadata\":\"[[\\\"text/plain\\\",\\\"Hello world\\\"]]\",\"callback\":\"http://example.com/\",\"tag\":\"payRequest\",\"allowsNostr\":true,\"nostrPubkey\":\"9630f464cca6a5147aa8a35f0bcdd3ce485324e732fd39e09233b1d848238f31\"\x7d" := by
  rfl

/-- Claim C1: the spec requires an unexpected RPC response kind to
surface as an explicit error result, never as a process crash.  The
code instead reaches `panic!("CLN returned wrong response kind")`
(`src/main.rs` line 241): at a concrete request where the node answers
with a non-invoice response kind, the handler outcome is the abort, not
an error result. -/
theorem get_invoice_aborts_on_unexpected_response_kind :
    (get_invoice sampleState wrongKindEnv sampleParams).1 =
      .crash "CLN returned wrong response kind" := by
  rfl

/-- Claim C2: when the `nostr` query parameter is present and its event
either fails to parse or fails signature verification, `get_invoice`
returns the error status and submits no invoice-creation request to
the RPC client. -/
theorem invalid_nostr_event_returns_error_without_rpc (state : ClnurlState)
    (env : InvoiceEnv) (params : GetInvoiceParams) (d : String)
    (hn : params.nostr = some d)
    (hbad : env.from_json d = none ∨
      ∃ ev, env.from_json d = some ev ∧ env.verify ev = false) :
    get_invoice state env params = (.err 500, []) := by
  have hd : resolveDescription state env params.nostr = none := by
    rcases hbad with h | ⟨ev, h1, h2⟩
    · simp [resolveDescription, hn, h]
    · simp [resolveDescription, hn, h1, h2]
  cases hc : env.connectOk <;> simp [get_invoice, hc, hd]

/-- Witness for C2: a request carrying an event whose signature does
not verify is rejected with status 500 and no RPC call is issued. -/
theorem invalid_nostr_event_returns_error_without_rpc_witness :
    get_invoice sampleState tamperedSigEnv
      ⟨AmountWrapper.from_msat 500, some "tampered event"⟩ = (.err 500, []) :=
  invalid_nostr_event_returns_error_without_rpc sampleState tamperedSigEnv
    ⟨AmountWrapper.from_msat 500, some "tampered event"⟩ "tampered event" rfl
    (Or.inr ⟨⟨"tampered event"⟩, rfl, rfl⟩)

/-- Claim C3: without a `nostr` parameter, the single invoice-creation
request `get_invoice` submits carries a description byte-identical to
the `metadata` string of the descriptor `get_lnurl_struct` returns for
the same configuration. -/
theorem metadata_binding (state : ClnurlState) (env : InvoiceEnv)
    (params : GetInvoiceParams)
    (hn : params.nostr = none) (hc : env.connectOk = true)
    (hb : state.api_base_address.cannot_be_a_base = false) :
    ∃ r, get_lnurl_struct state = .ok r ∧
      (get_invoice state env params).2 =
        [mkInvoiceRequest params.amount r.metadata env.label] := by
  refine ⟨builtDescriptor state, get_lnurl_struct_ok state hb, ?_⟩
  exact get_invoice_trace state env params _ hc
    (by simp [resolveDescription, hn, serde_json_to_string, builtDescriptor])

/-- Witness for C3 at the default configuration and a 1000 msat
request. -/
theorem metadata_binding_witness :
    ∃ r, get_lnurl_struct sampleState = .ok r ∧
      (get_invoice sampleState okEnv sampleParams).2 =
        [mkInvoiceRequest sampleParams.amount r.metadata okEnv.label] :=
  metadata_binding sampleState okEnv sampleParams rfl rfl rfl

/-- Claim C4: for every configuration whose base address supports
joining (the builder is a pure function, so determinism holds by
construction), the descriptor has `minSendable` of exactly
1 millisatoshi and `maxSendable` of exactly 100000000000 millisatoshi,
as hardcoded constants independent of the configuration. -/
theorem descriptor_fixed_bounds (state : ClnurlState)
    (hb : state.api_base_address.cannot_be_a_base = false) :
    ∃ r, get_lnurl_struct state = .ok r ∧
      r.min_sendable = AmountWrapper.from_msat 1 ∧
      r.max_sendable = AmountWrapper.from_msat 100000000000 ∧
      r.min_sendable.msat = 1 ∧ r.max_sendable.msat = 100000000000 :=
  ⟨builtDescriptor state, get_lnurl_struct_ok state hb, rfl, rfl, rfl, rfl⟩

/-- Witness for C4 at the default configuration. -/
theorem descriptor_fixed_bounds_witness :
    ∃ r, get_lnurl_struct sampleState = .ok r ∧
      r.min_sendable = AmountWrapper.from_msat 1 ∧
      r.max_sendable = AmountWrapper.from_msat 100000000000 ∧
      r.min_sendable.msat = 1 ∧ r.max_sendable.msat = 100000000000 :=
  descriptor_fixed_bounds sampleState rfl

/-- Claim C5: for every non-negative integer representable in 64 bits,
deserializing it into an `AmountWrapper` succeeds and serializing the
result returns the same integer, with no rounding or scaling. -/
theorem amount_codec_round_trip (n : Nat) (h : n < 2 ^ 64) :
    ∃ w, AmountWrapper.deserialize n = some w ∧ w.serialize = n :=
  ⟨⟨Amount.from_msat n⟩, by unfold AmountWrapper.deserialize; rw [if_pos h], rfl⟩

/-- Witness for C5 at 1000 millisatoshi. -/
theorem amount_codec_round_trip_witness :
    ∃ w, AmountWrapper.deserialize 1000 = some w ∧ w.serialize = 1000 :=
  amount_codec_round_trip 1000 (by norm_num)

/-- Claim C6: whenever the description resolves (with no bounds check
anywhere on the decoded amount), the one invoice-creation request
submitted carries exactly the decoded amount (not "any"), the resolved
description, the label generated for this call, description-hash-only
mode enabled, and no expiry, fallback, preimage, private-channel or
CLTV overrides. -/
theorem invoice_request_exact_fields (state : ClnurlState) (env : InvoiceEnv)
    (params : GetInvoiceParams) (desc : String)
    (hc : env.connectOk = true)
    (hd : resolveDescription state env params.nostr = some desc) :
    (get_invoice state env params).2 =
      [{ amount_msat := AmountOrAny.amount params.amount.toAmount
         description := desc
         label := env.label
         expiry := none
         fallbacks := none
         preimage := none
         exposeprivatechannels := none
         cltv := none
         deschashonly := some true }] := by
  simpa [mkInvoiceRequest] using get_invoice_trace state env params desc hc hd

/-- Witness for C6 at an amount far above the advertised maximum,
showing the decoded amount is forwarded without re-validation. -/
theorem invoice_request_exact_fields_witness :
    (get_invoice sampleState okEnv
        ⟨AmountWrapper.from_msat 999999999999999, none⟩).2 =
      [{ amount_msat :=
           AmountOrAny.amount (AmountWrapper.from_msat 999999999999999).toAmount
         description := jsonStringArrayArray [["text/plain", "Gimme money!"]]
         label := okEnv.label
         expiry := none
         fallbacks := none
         preimage := none
         exposeprivatechannels := none
         cltv := none
         deschashonly := some true }] :=
  invoice_request_exact_fields sampleState okEnv
    ⟨AmountWrapper.from_msat 999999999999999, none⟩
    (jsonStringArrayArray [["text/plain", "Gimme money!"]]) rfl rfl

/-- Claim C7: the descriptor's `allowsNostr` is true exactly when a
verifier public key is configured, and the `nostrPubkey` key appears in
the serialized JSON object exactly when `allowsNostr` is true; when it
appears, its value is the JSON encoding of the configured key, never
the literal `null`. -/
theorem allows_nostr_iff_pubkey_field (state : ClnurlState)
    (hb : state.api_base_address.cannot_be_a_base = false) :
    ∃ r, get_lnurl_struct state = .ok r ∧
      r.allows_nostr = state.nostr_pubkey.isSome ∧
      (("nostrPubkey" ∈ (lnurlFields r).map Prod.fst) ↔
        state.nostr_pubkey.isSome = true) ∧
      (∀ v, ("nostrPubkey", v) ∈ lnurlFields r →
        ∃ pk, state.nostr_pubkey = some pk ∧ v = jsonEncodeString pk) := by
  refine ⟨builtDescriptor state, get_lnurl_struct_ok state hb, rfl, ?_, ?_⟩ <;>
    cases hpk : state.nostr_pubkey <;>
      simp [lnurlFields, builtDescriptor, hpk, Prod.mk.injEq]

/-- Witness for C7 at a configuration with a verifier key configured. -/
theorem allows_nostr_iff_pubkey_field_witness :
    ∃ r, get_lnurl_struct
        ⟨"/tmp/lightning-rpc", sampleUrl, "Gimme money!",
         some "9630f464cca6a5147aa8a35f0bcdd3ce485324e732fd39e09233b1d848238f31"⟩ = .ok r ∧
      r.allows_nostr =
        (Option.some
          "9630f464cca6a5147aa8a35f0bcdd3ce485324e732fd39e09233b1d848238f31").isSome ∧
      (("nostrPubkey" ∈ (lnurlFields r).map Prod.fst) ↔
        (Option.some
          "9630f464cca6a5147aa8a35f0bcdd3ce485324e732fd39e09233b1d848238f31").isSome = true) ∧
      (∀ v, ("nostrPubkey", v) ∈ lnurlFields r →
        ∃ pk, Option.some
            "9630f464cca6a5147aa8a35f0bcdd3ce485324e732fd39e09233b1d848238f31" = some pk ∧
          v = jsonEncodeString pk) :=
  allows_nostr_iff_pubkey_field
    ⟨"/tmp/lightning-rpc", sampleUrl, "Gimme money!",
     some "9630f464cca6a5147aa8a35f0bcdd3ce485324e732fd39e09233b1d848238f31"⟩ rfl

/-- Claim C8: when the node answers the submitted request with an
invoice-creation response, the handler returns `pr` equal to that
response's bolt11 string, no success action and empty routes. -/
theorem success_response_shape (state : ClnurlState) (env : InvoiceEnv)
    (params : GetInvoiceParams) (desc b : String)
    (hc : env.connectOk = true)
    (hd : resolveDescription state env params.nostr = some desc)
    (hr : env.rpcCall (mkInvoiceRequest params.amount desc env.label) =
      some (CLNResponse.invoice b)) :
    (get_invoice state env params).1 =
      .ok { pr := b, success_action := none, routes := [] } := by
  simp [get_invoice, hc, hd, hr]

/-- Witness for C8 at the default configuration, where the node
returns the bolt11 string of `okEnv`. -/
theorem success_response_shape_witness :
    (get_invoice sampleState okEnv sampleParams).1 =
      .ok { pr := "lnbc10n1demo", success_action := none, routes := [] } :=
  success_response_shape sampleState okEnv sampleParams
    (jsonStringArrayArray [["text/plain", "Gimme money!"]]) "lnbc10n1demo"
    rfl rfl rfl

/-- Claim C9: for every configuration whose base address admits the
`invoice` join (the spec's notion of valid configuration, the failing
case being a startup configuration error), a descriptor request always
succeeds: the metadata serialization is infallible and no per-request
failure path remains. -/
theorem descriptor_request_always_succeeds (state : ClnurlState)
    (hb : state.api_base_address.cannot_be_a_base = false) :
    ∃ r, get_lnurl_struct state = .ok r :=
  ⟨builtDescriptor state, get_lnurl_struct_ok state hb⟩

/-- Witness for C9 at the default configuration. -/
theorem descriptor_request_always_succeeds_witness :
    ∃ r, get_lnurl_struct sampleState = .ok r :=
  descriptor_request_always_succeeds sampleState rfl

/-- Claim C10: whatever string is configured as the verifier public
key — no well-formedness check is applied to it anywhere — the
descriptor echoes it verbatim in its `nostr_pubkey` field. -/
theorem nostr_pubkey_echoed_verbatim (state : ClnurlState) (pk : String)
    (hb : state.api_base_address.cannot_be_a_base = false)
    (hpk : state.nostr_pubkey = some pk) :
    ∃ r, get_lnurl_struct state = .ok r ∧ r.nostr_pubkey = some pk :=
  ⟨builtDescriptor state, get_lnurl_struct_ok state hb,
    by simp [builtDescriptor, hpk]⟩

/-- Witness for C10 at a configured value that is clearly not a valid
public key, still echoed verbatim. -/
theorem nostr_pubkey_echoed_verbatim_witness :
    ∃ r, get_lnurl_struct
        ⟨"/tmp/lightning-rpc", sampleUrl, "Gimme money!",
         some "definitely not a valid public key!!"⟩ = .ok r ∧
      r.nostr_pubkey = some "definitely not a valid public key!!" :=
  nostr_pubkey_echoed_verbatim
    ⟨"/tmp/lightning-rpc", sampleUrl, "Gimme money!",
     some "definitely not a valid public key!!"⟩
    "definitely not a valid public key!!" rfl rfl

end Clnurl
